import Mathlib

/-!
Shallow embedding of `certbot_dns_do/dns_do.py` (the Domain-Offensive DNS
authenticator plugin).

The module's core is the class `_DomainOffensiveClient` with two methods,
`add_txt_record` and `del_txt_record`, each of which issues a single HTTP GET
against the fixed endpoint `API_URL` and interprets the JSON response, plus the
`Authenticator` adapter (`_perform`, `_cleanup`, `_get_do_client`,
`_setup_credentials`).

Modelling decisions, all traceable to the source:
* The network is an oracle `net : Request → NetOutcome`. `NetOutcome.netError`
  models `requests.get` raising a `requests.exceptions.RequestException`
  (connection error, timeout, ...); `NetOutcome.response` carries the HTTP
  status code, the reason phrase, and the body.
* A response body is either decodable JSON (`Body.json`) or undecodable
  (`Body.malformed`); in the latter case `r.json()` raises
  `requests.exceptions.JSONDecodeError`, which (requests ≥ 2.27) is a
  `RequestException` and hence caught by the `except` clause; the decode-error
  message is carried by the constructor.
* Decoded JSON values are `JsonVal`; numbers are modelled as `Int` (enough for
  the claims; Python's `1 == True` and `1.0 == True` behave identically).
  An object is the already-decoded Python dict, so its key list is duplicate
  free and association-list lookup is dict lookup.
* Python exceptions that can escape the translated code are `PyExc`:
  `certbot.errors.PluginError`, the `TypeError` that the expression
  `'success' not in result` / `result['success']` raises when `result` is not
  a dict/list/str, and the configuration error of the host framework.
* Each method returns a `MethodResult`: the outcome (`Except PyExc Unit` —
  `.error` models an escaping exception, `.ok` a normal return), the list of
  HTTP requests issued during the call, and the client object after the call
  (the source never assigns any attribute outside `__init__`).
* URL percent-encoding of the query string is elided in `requestUrl`; nothing
  below depends on the encoding.
-/

/-- `API_URL = 'https://www.do.de/api/letsencrypt'` (dns_do.py line 14). -/
def API_URL : String := "https://www.do.de/api/letsencrypt"

/-- `ACCOUNT_URL` (dns_do.py line 13). -/
def ACCOUNT_URL : String := "https://www.do.de/account/letsencrypt/"

/-- A decoded JSON value, as returned by `r.json()`. -/
inductive JsonVal where
  | null
  | bool (b : Bool)
  | num (n : Int)
  | str (s : String)
  | arr (elems : List JsonVal)
  | obj (fields : List (String × JsonVal))

/-- The Python exceptions that can escape the translated code. -/
inductive PyExc where
  | pluginError (msg : String)
  | typeError (msg : String)
  | configError (msg : String)
deriving DecidableEq

/-- An HTTP request as issued by `requests.get(API_URL, params=params)`:
the base URL and the query parameters in insertion order. -/
structure Request where
  url : String
  params : List (String × String)
deriving DecidableEq

/-- A response body: decodable JSON, or undecodable text (in which case
`r.json()` raises and `errMsg` is the decode error's message). -/
inductive Body where
  | json (v : JsonVal)
  | malformed (errMsg : String)

/-- Outcome of one `requests.get` call: a transport-level
`RequestException` with message `msg`, or an HTTP response. -/
inductive NetOutcome where
  | netError (msg : String)
  | response (status : Nat) (reason : String) (body : Body)

/-- The full URL of a request including its query string
(percent-encoding elided). -/
def requestUrl (req : Request) : String :=
  req.url ++ "?" ++ String.intercalate "&" (req.params.map (fun p => p.1 ++ "=" ++ p.2))

/-- `requests.Response.raise_for_status`: raises an `HTTPError` (a
`RequestException`) exactly for status codes in [400, 600); returns the
error message when it raises, `none` otherwise. -/
def raise_for_status (status : Nat) (reason url : String) : Option String :=
  if 400 ≤ status ∧ status < 500 then
    some (toString status ++ " Client Error: " ++ reason ++ " for url: " ++ url)
  else if 500 ≤ status ∧ status < 600 then
    some (toString status ++ " Server Error: " ++ reason ++ " for url: " ++ url)
  else
    none

/-- Python equality of a decoded JSON value with `True`
(`v == True` in Python): `True == True`, and `1 == True` / `1.0 == True`
because `bool` is an `int` subclass; every other value compares unequal. -/
def pyEqTrue : JsonVal → Bool
  | .bool b => b
  | .num n => n == 1
  | _ => false

/-- `pat` is an initial segment of `s` (on character lists). -/
def charsHasInit : List Char → List Char → Bool
  | [], _ => true
  | _ :: _, [] => false
  | p :: ps, c :: cs => p == c && charsHasInit ps cs

/-- `pat` occurs as a contiguous sublist of `s` (on character lists). -/
def charsHasSub (pat : List Char) : List Char → Bool
  | [] => charsHasInit pat []
  | c :: cs => charsHasInit pat (c :: cs) || charsHasSub pat cs

/-- Python's substring test `pat in s` for strings. -/
def strContains (s pat : String) : Bool :=
  charsHasSub pat.data s.data

/-- Evaluation of the guard on dns_do.py line 88 / 119:
`'success' not in result or result['success'] != True`.
`.ok true` means the guard is true (the failure branch is taken),
`.ok false` means the response counts as success, and `.error` means the
expression itself raises a `TypeError`:
* `result` a dict: `in` is key lookup, indexing yields the value;
* `result` a list: `in` is element equality with the string `'success'`;
  when found, `result['success']` then raises (list index must be int);
* `result` a str: `in` is the substring test; when it succeeds,
  `result['success']` raises (string index must be int);
* `result` `None`, a bool or a number: `in` itself raises. -/
def successCheckFails (v : JsonVal) : Except PyExc Bool :=
  match v with
  | .obj fields =>
    match fields.lookup "success" with
    | none => .ok true
    | some sv => .ok (!pyEqTrue sv)
  | .arr elems =>
    if elems.any (fun e => match e with | .str s => s == "success" | _ => false) then
      .error (.typeError "list indices must be integers or slices, not str")
    else
      .ok true
  | .str s =>
    if strContains s "success" then
      .error (.typeError "string indices must be integers")
    else
      .ok true
  | .null => .error (.typeError "argument of type 'NoneType' is not iterable")
  | .bool _ => .error (.typeError "argument of type 'bool' is not iterable")
  | .num _ => .error (.typeError "argument of type 'int' is not iterable")

/-- `_DomainOffensiveClient`: its only attribute is `api_token`, set by
`__init__` (dns_do.py lines 65–66). -/
structure DOClient where
  api_token : String
deriving DecidableEq

/-- Result of one client-method call: the outcome (an escaping exception or a
normal return), the HTTP requests issued, and the client object after the
call. -/
structure MethodResult where
  result : Except PyExc Unit
  requests : List Request
  client : DOClient

/-- The request built by `add_txt_record` (dns_do.py lines 79–81):
`params = {'token': ..., 'domain': record_name, 'value': record_content}`. -/
def addRequest (token record_name record_content : String) : Request :=
  ⟨API_URL, [("token", token), ("domain", record_name), ("value", record_content)]⟩

/-- The request built by `del_txt_record` (dns_do.py lines 110–112):
`params = {'token': ..., 'domain': record_name, 'action': 'delete'}`. -/
def delRequest (token record_name : String) : Request :=
  ⟨API_URL, [("token", token), ("domain", record_name), ("action", "delete")]⟩

/-- The `try`/`except` body of `add_txt_record` (dns_do.py lines 83–93) as a
function of the outcome of its single `requests.get` call. The `except`
clause catches exactly `RequestException`s, re-raising them as
`PluginError('Error adding TXT record: {0}'.format(e))`; the explicit
`raise errors.PluginError('Error adding TXT record: not successful')` is the
non-success branch; a `TypeError` from the success guard escapes uncaught. -/
def addOutcomeResult (url : String) (out : NetOutcome) : Except PyExc Unit :=
  match out with
  | .netError e => .error (.pluginError ("Error adding TXT record: " ++ e))
  | .response status reason body =>
    match raise_for_status status reason url with
    | some e => .error (.pluginError ("Error adding TXT record: " ++ e))
    | none =>
      match body with
      | .malformed e => .error (.pluginError ("Error adding TXT record: " ++ e))
      | .json v =>
        match successCheckFails v with
        | .error exc => .error exc
        | .ok true => .error (.pluginError "Error adding TXT record: not successful")
        | .ok false => .ok ()

/-- The `try`/`except` body of `del_txt_record` (dns_do.py lines 114–122):
identical detection logic, but both the non-success branch and the caught
`RequestException` only log (`logger.error`) and return normally; a
`TypeError` from the success guard still escapes uncaught. -/
def delOutcomeResult (url : String) (out : NetOutcome) : Except PyExc Unit :=
  match out with
  | .netError _ => .ok ()
  | .response status reason body =>
    match raise_for_status status reason url with
    | some _ => .ok ()
    | none =>
      match body with
      | .malformed _ => .ok ()
      | .json v =>
        match successCheckFails v with
        | .error exc => .error exc
        | .ok _ => .ok ()

/-- `_DomainOffensiveClient.add_txt_record(self, domain, record_name,
record_content)` (dns_do.py lines 68–93). `domain` is accepted but unused.
Exactly one request is issued; no attribute of `self` is assigned. -/
def add_txt_record (c : DOClient) (domain record_name record_content : String)
    (net : Request → NetOutcome) : MethodResult :=
  let req := addRequest c.api_token record_name record_content
  ⟨addOutcomeResult (requestUrl req) (net req), [req], c⟩

/-- `_DomainOffensiveClient.del_txt_record(self, domain, record_name,
record_content)` (dns_do.py lines 95–122). `domain` and `record_content` are
accepted but unused. Exactly one request is issued; no attribute of `self`
is assigned. -/
def del_txt_record (c : DOClient) (domain record_name record_content : String)
    (net : Request → NetOutcome) : MethodResult :=
  let req := delRequest c.api_token record_name
  ⟨delOutcomeResult (requestUrl req) (net req), [req], c⟩

/-- Credentials as the loaded INI key/value mapping; `conf('api-token')`
is association-list lookup. -/
def confLookup (creds : List (String × String)) (key : String) : String :=
  (creds.lookup key).getD ""

/-- `Authenticator._get_do_client` (dns_do.py lines 56–57): constructs a fresh
`_DomainOffensiveClient` from the loaded credentials' `api-token`. -/
def _get_do_client (creds : List (String × String)) : DOClient :=
  ⟨confLookup creds "api-token"⟩

/-- Modelled from the spec: the host framework's credential configuration
(`certbot.plugins.dns_common.DNSAuthenticator._configure_credentials`, not in
src/), invoked by `_setup_credentials` (dns_do.py lines 41–48) with the single
required key `api-token`. Per the spec, absence of a required key "is a
configuration error surfaced before any network call is attempted". -/
def _configure_credentials (creds : List (String × String)) (required : List String) :
    Except PyExc (List (String × String)) :=
  match required.filter (fun k => (creds.lookup k).isNone) with
  | [] => .ok creds
  | missing => .error (.configError
      ("Missing properties in credentials configuration file: " ++
        String.intercalate ", " missing))

/-- `Authenticator._perform` (dns_do.py lines 50–51): builds the client via
`_get_do_client` and calls `add_txt_record`, propagating its outcome
unchanged. Returns the outcome and the requests issued. -/
def _perform (creds : List (String × String)) (domain validation_name validation : String)
    (net : Request → NetOutcome) : Except PyExc Unit × List Request :=
  ((add_txt_record (_get_do_client creds) domain validation_name validation net).result,
   (add_txt_record (_get_do_client creds) domain validation_name validation net).requests)

/-- `Authenticator._cleanup` (dns_do.py lines 53–54): builds the client via
`_get_do_client` and calls `del_txt_record`, propagating its outcome
unchanged. -/
def _cleanup (creds : List (String × String)) (domain validation_name validation : String)
    (net : Request → NetOutcome) : Except PyExc Unit × List Request :=
  ((del_txt_record (_get_do_client creds) domain validation_name validation net).result,
   (del_txt_record (_get_do_client creds) domain validation_name validation net).requests)

/-- The perform path of the plugin as the host drives it: credential setup
(`_setup_credentials`, dns_do.py lines 41–48, requiring the key `api-token`)
followed, on success, by `_perform`. When setup fails, the configuration
error surfaces and no request is issued. -/
def authenticatorPerform (creds : List (String × String))
    (domain validation_name validation : String)
    (net : Request → NetOutcome) : Except PyExc Unit × List Request :=
  match _configure_credentials creds ["api-token"] with
  | .error e => (.error e, [])
  | .ok loaded => _perform loaded domain validation_name validation net

/-! ## Claims -/

/-- Claim C1, counterexample to the claim as stated: on a 2xx response whose
body decodes to JSON `null`, the add operation fails, but the escaping
exception is the `TypeError` raised by `'success' not in result` — not a
`PluginError` — because a `TypeError` is not a `requests.exceptions.
RequestException` and is therefore not converted by the `except` clause. -/
theorem add_txt_record_null_body_typeerror :
    (add_txt_record ⟨"tok"⟩ "example.com" "_acme-challenge.example.com" "value"
        (fun _ => .response 200 "OK" (.json .null))).result
      = .error (.typeError "argument of type 'NoneType' is not iterable") :=
  rfl

/-- Claim C2 (code bug): `del_txt_record`'s own docstring promises "Failures
are logged, but not raised", yet on a 2xx response whose body decodes to JSON
`null` the membership test `'success' not in result` raises a `TypeError`
that is not caught by the `except RequestException` clause, so both
`del_txt_record` and `_cleanup` raise. -/
theorem del_txt_record_null_body_typeerror :
    (del_txt_record ⟨"tok"⟩ "example.com" "_acme-challenge.example.com" "value"
        (fun _ => .response 200 "OK" (.json .null))).result
      = .error (.typeError "argument of type 'NoneType' is not iterable")
    ∧ (_cleanup [("api-token", "tok")] "example.com" "_acme-challenge.example.com" "value"
        (fun _ => .response 200 "OK" (.json .null))).1
      = .error (.typeError "argument of type 'NoneType' is not iterable") :=
  ⟨rfl, rfl⟩

/-- Claim C3, counterexample to the claim as stated: a response with HTTP
status 302 — not a success (2xx) code — and body `{"success": true}` makes
`add_txt_record` return successfully, because `raise_for_status` only rejects
statuses in [400, 600). The "if and only if" of the claim therefore fails in
the right-to-left direction. -/
theorem add_redirect_status_success_counterexample :
    (add_txt_record ⟨"tok"⟩ "example.com" "_acme-challenge.example.com" "value"
        (fun _ => .response 302 "Found" (.json (.obj [("success", .bool true)])))).result
      = .ok ()
    ∧ ¬ (200 ≤ 302 ∧ 302 < 300) :=
  ⟨rfl, by decide⟩

/-- Claim C4 (confirmed): the delete request goes to the same endpoint with
the same `token` and `domain` parameters as the add request, with
`action=delete` in place of the `value` parameter; `record_content` is
accepted by `del_txt_record` but does not occur in the request, and the whole
call is independent of it. -/
theorem del_request_shape (c : DOClient) (d rn rc rc' : String)
    (net : Request → NetOutcome) :
    (del_txt_record c d rn rc net).requests
      = [⟨API_URL, [("token", c.api_token), ("domain", rn), ("action", "delete")]⟩]
    ∧ (add_txt_record c d rn rc net).requests
      = [⟨API_URL, [("token", c.api_token), ("domain", rn), ("value", rc)]⟩]
    ∧ del_txt_record c d rn rc net = del_txt_record c d rn rc' net :=
  ⟨rfl, rfl, rfl⟩

/-- Claim C6 (confirmed): the add request's query parameters are exactly
`token`, `domain=record_name`, `value=record_content`; the `domain` argument
does not occur in them, and the entire result of `add_txt_record` is
independent of the `domain` argument. -/
theorem add_domain_not_transmitted (c : DOClient) (d d' rn rc : String)
    (net : Request → NetOutcome) :
    (add_txt_record c d rn rc net).requests
      = [⟨API_URL, [("token", c.api_token), ("domain", rn), ("value", rc)]⟩]
    ∧ add_txt_record c d rn rc net = add_txt_record c d' rn rc net :=
  ⟨rfl, rfl⟩

/-- Claim C7, counterexample to the claim as stated: on a `success: false`
response, `add_txt_record` raises `PluginError('Error adding TXT record: not
successful')`; the message does not contain the domain `example.com` (the
format strings on dns_do.py lines 90 and 93 never interpolate `domain`). -/
theorem add_error_message_omits_domain :
    (add_txt_record ⟨"tok"⟩ "example.com" "_acme-challenge.example.com" "value"
        (fun _ => .response 200 "OK" (.json (.obj [("success", .bool false)])))).result
      = .error (.pluginError "Error adding TXT record: not successful")
    ∧ strContains "Error adding TXT record: not successful" "example.com" = false :=
  ⟨rfl, by decide⟩

/-- Claim C8 (confirmed): each of `add_txt_record` and `del_txt_record`
issues exactly one HTTP request per invocation, whatever the network
outcome — there is no retry path in either method. -/
theorem single_request_per_call (c : DOClient) (d rn rc : String)
    (net : Request → NetOutcome) :
    (add_txt_record c d rn rc net).requests.length = 1
    ∧ (del_txt_record c d rn rc net).requests.length = 1 :=
  ⟨rfl, rfl⟩

/-- Claim C9 (confirmed): a 2xx response whose `success` field is the number
`1` — not the boolean `true` — is accepted as success, because the guard
`result['success'] != True` uses Python equality and `1 == True` in Python. -/
theorem add_numeric_success_accepted :
    (add_txt_record ⟨"tok"⟩ "example.com" "_acme-challenge.example.com" "value"
        (fun _ => .response 200 "OK" (.json (.obj [("success", .num 1)])))).result
      = .ok ()
    ∧ JsonVal.num 1 ≠ JsonVal.bool true :=
  ⟨rfl, fun h => nomatch h⟩

/-- Claim C10 (confirmed): `_get_do_client` builds a fresh client holding
exactly the loaded credentials' `api-token`; the client value after an
`add_txt_record` or `del_txt_record` call equals the client before it (the
methods assign no attribute), and `_perform` / `_cleanup` each construct
their client from the credentials via `_get_do_client`. -/
theorem client_state_immutable (creds : List (String × String)) (c : DOClient)
    (d rn rc : String) (net : Request → NetOutcome) :
    _get_do_client creds = ⟨(creds.lookup "api-token").getD ""⟩
    ∧ (add_txt_record c d rn rc net).client = c
    ∧ (del_txt_record c d rn rc net).client = c
    ∧ _perform creds d rn rc net
        = ((add_txt_record (_get_do_client creds) d rn rc net).result,
           (add_txt_record (_get_do_client creds) d rn rc net).requests)
    ∧ _cleanup creds d rn rc net
        = ((del_txt_record (_get_do_client creds) d rn rc net).result,
           (del_txt_record (_get_do_client creds) d rn rc net).requests) :=
  ⟨rfl, rfl, rfl, rfl, rfl⟩

/-- Claim C5 (confirmed, host-framework validation modelled from the spec):
when the credentials mapping has no `api-token` key, the perform path fails
with a configuration error naming the missing key and issues zero HTTP
requests. -/
theorem perform_missing_token_config_error
    (creds : List (String × String)) (d rn rc : String) (net : Request → NetOutcome)
    (h : creds.lookup "api-token" = none) :
    authenticatorPerform creds d rn rc net
      = (.error (.configError "Missing properties in credentials configuration file: api-token"),
         []) := by
  unfold authenticatorPerform _configure_credentials
  simp [List.filter, h]
  decide

/-- Witness for `perform_missing_token_config_error` at a concrete
credentials mapping lacking `api-token`. -/
theorem perform_missing_token_config_error_witness :
    authenticatorPerform [("other-key", "x")] "example.com"
        "_acme-challenge.example.com" "value" (fun _ => .netError "unreachable")
      = (.error (.configError "Missing properties in credentials configuration file: api-token"),
         []) :=
  perform_missing_token_config_error [("other-key", "x")] "example.com"
    "_acme-challenge.example.com" "value" (fun _ => .netError "unreachable") (by decide)

/-! ## Helper lemmas for the amended claims -/

/-- `raise_for_status` passes (returns `none`) exactly for statuses outside
[400, 600). -/
theorem raise_for_status_none_iff (status : Nat) (reason url : String) :
    raise_for_status status reason url = none ↔ ¬ (400 ≤ status ∧ status < 600) := by
  unfold raise_for_status
  split_ifs with h1 h2 <;> simp <;> omega

/-- The success guard evaluates to "success" exactly on a JSON object whose
`success` member is Python-equal to `True`. -/
theorem successCheckFails_ok_false_iff (v : JsonVal) :
    successCheckFails v = .ok false
      ↔ ∃ fields sv, v = JsonVal.obj fields
          ∧ fields.lookup "success" = some sv ∧ pyEqTrue sv = true := by
  cases v with
  | null => simp [successCheckFails]
  | bool b => simp [successCheckFails]
  | num n => simp [successCheckFails]
  | str s =>
    simp only [successCheckFails]
    split <;> simp
  | arr elems =>
    simp only [successCheckFails]
    split <;> simp
  | obj fields =>
    cases hl : fields.lookup "success" with
    | none => simp [successCheckFails, hl]
    | some sv => simp [successCheckFails, hl]

/-- Any exception of the success guard is a `TypeError`. -/
theorem successCheckFails_error_typeError (v : JsonVal) (e : PyExc)
    (h : successCheckFails v = .error e) : ∃ m, e = PyExc.typeError m := by
  cases v with
  | null => simp [successCheckFails] at h; exact ⟨_, h.symm⟩
  | bool b => simp [successCheckFails] at h; exact ⟨_, h.symm⟩
  | num n => simp [successCheckFails] at h; exact ⟨_, h.symm⟩
  | str s =>
    simp only [successCheckFails] at h
    revert h; split
    · intro h; simp at h; exact ⟨_, h.symm⟩
    · intro h; exact Except.noConfusion h
  | arr elems =>
    simp only [successCheckFails] at h
    revert h; split
    · intro h; simp at h; exact ⟨_, h.symm⟩
    · intro h; exact Except.noConfusion h
  | obj fields =>
    cases hl : fields.lookup "success" with
    | none => simp [successCheckFails, hl] at h
    | some sv => simp [successCheckFails, hl] at h

/-- `add_txt_record`'s outcome interpretation returns normally exactly on a
response with a non-[400,600) status whose body is a JSON object whose
`success` member is Python-equal to `True`. -/
theorem addOutcomeResult_ok_iff (url : String) (out : NetOutcome) :
    addOutcomeResult url out = .ok ()
      ↔ ∃ status reason fields sv,
          out = NetOutcome.response status reason (Body.json (JsonVal.obj fields))
          ∧ ¬ (400 ≤ status ∧ status < 600)
          ∧ fields.lookup "success" = some sv
          ∧ pyEqTrue sv = true := by
  constructor
  · intro h
    cases out with
    | netError e => simp [addOutcomeResult] at h
    | response status reason body =>
      cases hrs : raise_for_status status reason url with
      | some e => simp [addOutcomeResult, hrs] at h
      | none =>
        have hnot : ¬ (400 ≤ status ∧ status < 600) :=
          (raise_for_status_none_iff status reason url).mp hrs
        cases body with
        | malformed e => simp [addOutcomeResult, hrs] at h
        | json v =>
          cases hsc : successCheckFails v with
          | error exc => simp [addOutcomeResult, hrs, hsc] at h
          | ok b =>
            cases b with
            | true => simp [addOutcomeResult, hrs, hsc] at h
            | false =>
              obtain ⟨fields, sv, hv, hl, ht⟩ := (successCheckFails_ok_false_iff v).mp hsc
              exact ⟨status, reason, fields, sv, by rw [hv], hnot, hl, ht⟩
  · rintro ⟨status, reason, fields, sv, rfl, hnot, hl, ht⟩
    have hrs : raise_for_status status reason url = none :=
      (raise_for_status_none_iff status reason url).mpr hnot
    have hsc : successCheckFails (JsonVal.obj fields) = .ok false :=
      (successCheckFails_ok_false_iff (JsonVal.obj fields)).mpr ⟨fields, sv, rfl, hl, ht⟩
    simp [addOutcomeResult, hrs, hsc]

/-- Any `PluginError` escaping the add path carries the message prefix
`Error adding TXT record: ` followed by the underlying cause string. -/
theorem addOutcomeResult_pluginError_shape (url : String) (out : NetOutcome) (msg : String)
    (h : addOutcomeResult url out = .error (.pluginError msg)) :
    ∃ cause, msg = "Error adding TXT record: " ++ cause := by
  cases out with
  | netError e =>
    simp [addOutcomeResult] at h
    exact ⟨e, h.symm⟩
  | response status reason body =>
    cases hrs : raise_for_status status reason url with
    | some e =>
      simp [addOutcomeResult, hrs] at h
      exact ⟨e, h.symm⟩
    | none =>
      cases body with
      | malformed e =>
        simp [addOutcomeResult, hrs] at h
        exact ⟨e, h.symm⟩
      | json v =>
        cases hsc : successCheckFails v with
        | error exc =>
          obtain ⟨m, rfl⟩ := successCheckFails_error_typeError v exc hsc
          simp [addOutcomeResult, hrs, hsc] at h
        | ok b =>
          cases b with
          | true =>
            simp [addOutcomeResult, hrs, hsc] at h
            exact ⟨"not successful", by rw [← h]; decide⟩
          | false => simp [addOutcomeResult, hrs, hsc] at h

/-- Claim C3 (amended): `add_txt_record` builds an HTTP GET to the fixed API
endpoint with exactly the query parameters {token, domain=record_name,
value=record_content}, and on a response it returns successfully if and only
if the HTTP status is outside [400, 600) — any status `raise_for_status`
accepts, which includes 1xx/3xx besides the 2xx codes — and the decoded JSON
body is an object whose `success` member is Python-equal to `True` (the
boolean `true` or the number 1), per the guard `result['success'] != True`. -/
theorem add_success_iff (c : DOClient) (d rn rc : String) (status : Nat)
    (reason : String) (body : Body) :
    (add_txt_record c d rn rc (fun _ => .response status reason body)).requests
      = [⟨API_URL, [("token", c.api_token), ("domain", rn), ("value", rc)]⟩]
    ∧ ((add_txt_record c d rn rc (fun _ => .response status reason body)).result = .ok ()
        ↔ (¬ (400 ≤ status ∧ status < 600)
           ∧ ∃ fields sv, body = Body.json (JsonVal.obj fields)
              ∧ fields.lookup "success" = some sv ∧ pyEqTrue sv = true)) := by
  refine ⟨rfl, ?_⟩
  have base := addOutcomeResult_ok_iff
      (requestUrl (addRequest c.api_token rn rc)) (NetOutcome.response status reason body)
  constructor
  · intro h
    obtain ⟨s, r, fields, sv, heq, hnot, hl, ht⟩ := base.mp h
    injection heq with h1 h2 h3
    subst h1
    exact ⟨hnot, fields, sv, h3, hl, ht⟩
  · rintro ⟨hnot, fields, sv, rfl, hl, ht⟩
    exact base.mpr ⟨status, reason, fields, sv, rfl, hnot, hl, ht⟩

/-- Claim C1 (amended): every failing `add_txt_record` call raises a
`PluginError` whose message is derived from the underlying cause — except
when the response status passes `raise_for_status` and the decoded JSON body
makes the guard `'success' not in result` / `result['success']` itself raise
a `TypeError` (body `null`, a number, a boolean, or a list/string containing
`success`), in which case that `TypeError` escapes instead; either exception
propagates unchanged through the adapter's `_perform`. -/
theorem add_failure_plugin_error_amended (c : DOClient)
    (creds : List (String × String)) (d rn rc : String) (net : Request → NetOutcome) :
    ((add_txt_record c d rn rc net).result = .ok ()
      ∨ (∃ m, (add_txt_record c d rn rc net).result = .error (.pluginError m))
      ∨ (∃ status reason v m,
          net (addRequest c.api_token rn rc) = .response status reason (.json v)
          ∧ successCheckFails v = .error (.typeError m)
          ∧ (add_txt_record c d rn rc net).result = .error (.typeError m)))
    ∧ _perform creds d rn rc net
        = ((add_txt_record (_get_do_client creds) d rn rc net).result,
           (add_txt_record (_get_do_client creds) d rn rc net).requests) := by
  refine ⟨?_, rfl⟩
  have hres : (add_txt_record c d rn rc net).result
      = addOutcomeResult (requestUrl (addRequest c.api_token rn rc))
          (net (addRequest c.api_token rn rc)) := rfl
  rw [hres]
  cases hout : net (addRequest c.api_token rn rc) with
  | netError e => exact Or.inr (Or.inl ⟨_, rfl⟩)
  | response status reason body =>
    cases hrs : raise_for_status status reason (requestUrl (addRequest c.api_token rn rc)) with
    | some e =>
      refine Or.inr (Or.inl ⟨"Error adding TXT record: " ++ e, ?_⟩)
      simp [addOutcomeResult, hrs]
    | none =>
      cases body with
      | malformed e =>
        refine Or.inr (Or.inl ⟨"Error adding TXT record: " ++ e, ?_⟩)
        simp [addOutcomeResult, hrs]
      | json v =>
        cases hsc : successCheckFails v with
        | error exc =>
          obtain ⟨m, rfl⟩ := successCheckFails_error_typeError v exc hsc
          refine Or.inr (Or.inr ⟨status, reason, v, m, rfl, hsc, ?_⟩)
          simp [addOutcomeResult, hrs, hsc]
        | ok b =>
          cases b with
          | true =>
            refine Or.inr (Or.inl ⟨"Error adding TXT record: not successful", ?_⟩)
            simp [addOutcomeResult, hrs, hsc]
          | false =>
            refine Or.inl ?_
            simp [addOutcomeResult, hrs, hsc]

/-- Claim C7 (amended): every `PluginError` surfaced by `add_txt_record` has
the message `Error adding TXT record: ` followed by the underlying cause
string; the domain is not part of the message — the whole call, message
included, is independent of the `domain` argument (the format strings on
dns_do.py lines 90 and 93 never interpolate it). -/
theorem add_error_message_shape (c : DOClient) (d rn rc : String)
    (net : Request → NetOutcome) (msg : String)
    (h : (add_txt_record c d rn rc net).result = .error (.pluginError msg)) :
    (∃ cause, msg = "Error adding TXT record: " ++ cause)
    ∧ ∀ d', (add_txt_record c d' rn rc net).result = .error (.pluginError msg) :=
  ⟨addOutcomeResult_pluginError_shape (requestUrl (addRequest c.api_token rn rc))
      (net (addRequest c.api_token rn rc)) msg h,
   fun _ => h⟩

/-- Witness for `add_error_message_shape` at a concrete run: a 200 response
with body `{"success": false}` yields the message
`Error adding TXT record: not successful`, and the same message results when
the `domain` argument is `other.org` instead of `example.com`. -/
theorem add_error_message_shape_witness :
    (∃ cause, "Error adding TXT record: not successful" = "Error adding TXT record: " ++ cause)
    ∧ (add_txt_record ⟨"tok"⟩ "other.org" "_acme-challenge.example.com" "value"
        (fun _ => .response 200 "OK" (.json (.obj [("success", .bool false)])))).result
      = .error (.pluginError "Error adding TXT record: not successful") :=
  ⟨(add_error_message_shape ⟨"tok"⟩ "example.com" "_acme-challenge.example.com" "value"
      (fun _ => .response 200 "OK" (.json (.obj [("success", .bool false)])))
      "Error adding TXT record: not successful" rfl).1,
   (add_error_message_shape ⟨"tok"⟩ "example.com" "_acme-challenge.example.com" "value"
      (fun _ => .response 200 "OK" (.json (.obj [("success", .bool false)])))
      "Error adding TXT record: not successful" rfl).2 "other.org"⟩
